import Mathlib

/-!
Shallow embedding of the document-processing microservice core
(src/backend/document_processing_microservice/src):

* `services/document_processing_pipeline.py` — `DocumentProcessingPipeline`
* `services/document_content_validator.py` — `DocumentContentValidator`
* `services/boostr_service.py` — `BoostrService.validate_rut`
* `services/ocr_service.py` — `OCRService._get_ocr_results` polling loop
* `core/schemas.py` — enums and result DTO

External collaborators (HTTP calls to the validator probe, Azure OCR, the
LLM classifier, Boostr) are modelled as explicit outcome values supplied in
an `Env` record: each provider call either returns a value or raises
(`Except.error msg`, carrying the Python exception message).  Python floats
are modelled as `ℚ`; wall-clock timestamps in log lines are omitted (the
log text keeps only the static message parts); `datetime.now()` is passed
explicitly as a `PyDate` parameter where the code reads it.
-/

namespace ManpowerDocProc

/-- Mirror of `FinalDecisionStatus` in `core/schemas.py`. -/
inductive FinalDecisionStatus where
  | APPROVED
  | REJECTED
  | MANUAL_REVIEW
deriving DecidableEq, Repr

/-- Mirror of `ProcessingStatus` in `core/schemas.py`. -/
inductive ProcessingStatus where
  | PENDING
  | PREVALIDATION
  | REVI
  | CLASSIFICATION
  | EXTRACTION
  | AUTHENTICITY
  | VALIDATION
  | VALIDATION_IDENTIDAD_CL
  | COMPLETED
  | FAILED
deriving DecidableEq, Repr

/-- A document descriptor as defined by `PlatformDocumentItem` in
`core/schemas.py` (`file_url` and `file_name` required strings, optional
`platform_document_id`). -/
structure Document where
  file_url : String
  file_name : String
  platform_document_id : Option String := none
deriving DecidableEq, Repr

/-- A `{rule, reason}` record appended to `contexto["rejection_reasons"]`. -/
structure RejectionReason where
  rule : String
  reason : String
deriving DecidableEq, Repr

/-- Result dict produced by `BoostrService.validate_rut` /
`validate_from_extracted_data` (keys `valid`, `confidence`, `details`,
`source`; `details` is a string-keyed dict). -/
structure BoostrResult where
  valid : Bool
  confidence : ℚ
  details : List (String × String)
  source : String
deriving DecidableEq, Repr

/-- One OCR line from the Azure `readResults` payload: `line.get('text','')`
with an optional per-line `confidence`. -/
structure OcrLine where
  text : String
  confidence : Option ℚ
deriving DecidableEq, Repr

/-- The raw `analyzeResult.readResults` pages of a succeeded Azure poll. -/
structure RawOcr where
  pages : List (List OcrLine)
deriving DecidableEq, Repr

/-- Parsed OCR output of `OCRService._parse_ocr_result` (the `raw_result`
echo of the input payload is omitted). -/
structure OcrResult where
  extracted_text : String
  lines_count : Nat
  confidence : ℚ
deriving DecidableEq, Repr

/-- Classification dict returned by `AIClassificationService.classify_document`;
the pipeline reads it with `.get("document_type", "Desconocido")` and
`.get("confidence", 0.0)`, hence optional fields. -/
structure Classification where
  document_type : Option String
  confidence : Option ℚ
deriving DecidableEq, Repr

/-- Outcomes of the external provider calls made by one pipeline invocation:
`validator` is the `(is_valid, message)` pair from
`DocumentValidator.validate_document`; the others are the returned value or
the raised exception message. -/
structure Env where
  validator : Bool × String
  ocr : Except String OcrResult
  classify : Except String Classification
  extractData : Except String (List (String × String))
  boostr : Except String BoostrResult

/-- Which provider a pipeline stage invoked (instrumentation used to state
"provider X is never called" properties). -/
inductive ProviderCall where
  | validatorCall
  | ocrCall
  | classifyCall
  | boostrCall
deriving DecidableEq, Repr

/-- The mutable `contexto` dict of `DocumentProcessingPipeline`
(`_create_processing_context` keys; `boostr_validation` is added by the
identity stage, hence optional). -/
structure Contexto where
  owner_user_name : String
  document : Document
  processing_status : ProcessingStatus
  final_decision : FinalDecisionStatus
  extracted_text : String
  document_type : String
  structured_data : List (String × String)
  rejection_reasons : List RejectionReason
  processing_log : List String
  total_cost_usd : ℚ
  confidence_score : ℚ
  boostr_validation : Option BoostrResult := none
deriving Repr

/-- Characters stripped by Python `str.strip()` / matched by regex `\s`
(ASCII repertoire used by this service). -/
def pyIsSpace (c : Char) : Bool :=
  c = ' ' || c = '\t' || c = '\n' || c = '\r' || c = '\x0b' || c = '\x0c'

/-- Python `s.strip()`. -/
def pyStrip (s : String) : String :=
  String.mk (((s.toList.dropWhile pyIsSpace).reverse.dropWhile pyIsSpace).reverse)

/-- Python truthiness test `not s.strip()` used by the business rules on
`contexto["extracted_text"]`. -/
def isBlank (s : String) : Bool := pyStrip s = ""

/-- Rejection record appended by the minimum-confidence business rule
(the Python `f"...: {score:.2f}"` interpolation is rendered via `toString`). -/
def lowConfidenceReason (score : ℚ) : RejectionReason :=
  ⟨"Confianza Mínima", "Confianza del documento muy baja: " ++ toString score⟩

/-- Rejection record appended by the extracted-text business rule. -/
def noTextReason : RejectionReason :=
  ⟨"Texto Extraído", "No se pudo extraer texto del documento"⟩

/-- Rejection record appended when Boostr reports the RUT invalid. -/
def boostrInvalidReason (details : List (String × String)) : RejectionReason :=
  ⟨"Validación Boostr",
    "RUT no válido según Boostr: " ++ ((details.lookup "error").getD "Sin detalles")⟩

/-- Rejection record appended when the Boostr call raises. -/
def boostrErrorReason (e : String) : RejectionReason :=
  ⟨"Validación Boostr Error", "No se pudo validar con Boostr: " ++ e⟩

/-- Rejection record appended by `_handle_validation_error`. -/
def validationErrorReason (msg : String) : RejectionReason :=
  ⟨"Validación de Documento", msg⟩

/-- Rejection record appended by `_handle_processing_error`. -/
def processingErrorReason (msg : String) : RejectionReason :=
  ⟨"Error de Procesamiento", "Error inesperado: " ++ msg⟩

/-- `_create_processing_context`. -/
def create_processing_context (owner_user_name : String) (document : Document) : Contexto where
  owner_user_name := owner_user_name
  document := document
  processing_status := .PENDING
  final_decision := .MANUAL_REVIEW
  extracted_text := ""
  document_type := "Desconocido"
  structured_data := []
  rejection_reasons := []
  processing_log := []
  total_cost_usd := 0
  confidence_score := 0

/-- `_validate_document`: raises `DocumentValidationException` when the
validator reports invalid. -/
def validate_document_check (env : Env) : Except String Unit :=
  if env.validator.1 then Except.ok ()
  else Except.error ("Documento no válido: " ++ env.validator.2)

/-- `_execute_ocr`: on success stores the extracted text and logs; any
exception from the OCR service is re-raised with the `Error en OCR:` prefix
(the context is returned as mutated so far, mirroring in-place dict
mutation). -/
def execute_ocr (env : Env) (ctx : Contexto) : Contexto × Option String :=
  match env.ocr with
  | Except.error e => (ctx, some ("Error en OCR: " ++ e))
  | Except.ok r =>
    ({ ctx with
        extracted_text := r.extracted_text
        processing_log := ctx.processing_log ++
          ["OCR completado - " ++ toString r.lines_count ++ " líneas extraídas"] },
      none)

/-- `_execute_classification_and_extraction`: sets `document_type` (default
`"Desconocido"`) and `confidence_score` (default `0.0`) from the classifier
response, then runs structured extraction only for known types; both inner
calls re-raise with the `Error en clasificación:` prefix, and mutations made
before the failing call stay in the context. -/
def execute_classification (env : Env) (ctx : Contexto) : Contexto × Option String :=
  match env.classify with
  | Except.error e => (ctx, some ("Error en clasificación: " ++ e))
  | Except.ok c =>
    let ctx1 := { ctx with
      document_type := c.document_type.getD "Desconocido"
      confidence_score := c.confidence.getD 0 }
    if ctx1.document_type ≠ "Desconocido" then
      match env.extractData with
      | Except.error e => (ctx1, some ("Error en clasificación: " ++ e))
      | Except.ok sd =>
        ({ ctx1 with
            structured_data := sd
            processing_log := ctx1.processing_log ++
              ["Clasificación completada - Tipo: " ++ ctx1.document_type] },
          none)
    else
      ({ ctx1 with
          processing_log := ctx1.processing_log ++
            ["Clasificación completada - Tipo: " ++ ctx1.document_type] },
        none)

/-- `_execute_business_rules` (its `try` body is total, so no error case):
low-confidence check, blank-text check, then approve when no rejection
reason exists. -/
def execute_business_rules (ctx : Contexto) : Contexto :=
  let ctx1 :=
    if ctx.confidence_score < 7/10 then
      { ctx with
          rejection_reasons := ctx.rejection_reasons ++ [lowConfidenceReason ctx.confidence_score]
          final_decision := .MANUAL_REVIEW }
    else ctx
  let ctx2 :=
    if isBlank ctx1.extracted_text then
      { ctx1 with
          rejection_reasons := ctx1.rejection_reasons ++ [noTextReason]
          final_decision := .REJECTED }
    else ctx1
  let ctx3 :=
    if ctx2.rejection_reasons = [] then { ctx2 with final_decision := .APPROVED }
    else ctx2
  { ctx3 with
      processing_log := ctx3.processing_log ++ ["Reglas de negocio aplicadas"] }

/-- `_should_validate_identity_cl`. -/
def should_validate_identity_cl (ctx : Contexto) : Bool :=
  ctx.document_type = "Cédula de Identidad CL (Frontal)"

/-- `_execute_identity_validation`: stores the Boostr result, rejects when
Boostr reports invalid; a raising Boostr call is caught inside the stage and
turned into a MANUAL_REVIEW with its own rejection reason. -/
def execute_identity_validation (env : Env) (ctx : Contexto) : Contexto :=
  match env.boostr with
  | Except.ok vr =>
    let ctx1 := { ctx with boostr_validation := some vr }
    let ctx2 :=
      if !vr.valid then
        { ctx1 with
            rejection_reasons := ctx1.rejection_reasons ++ [boostrInvalidReason vr.details]
            final_decision := .REJECTED }
      else ctx1
    { ctx2 with
        processing_log := ctx2.processing_log ++ ["Validación Boostr completada"] }
  | Except.error e =>
    { ctx with
        processing_log := ctx.processing_log ++ ["Error en validación Boostr: " ++ e]
        rejection_reasons := ctx.rejection_reasons ++ [boostrErrorReason e]
        final_decision := .MANUAL_REVIEW }

/-- `_handle_validation_error`. -/
def handle_validation_error (ctx : Contexto) (msg : String) : Contexto :=
  { ctx with
      processing_status := .FAILED
      final_decision := .REJECTED
      rejection_reasons := ctx.rejection_reasons ++ [validationErrorReason msg] }

/-- `_handle_processing_error`. -/
def handle_processing_error (ctx : Contexto) (msg : String) : Contexto :=
  { ctx with
      processing_status := .FAILED
      final_decision := .MANUAL_REVIEW
      rejection_reasons := ctx.rejection_reasons ++ [processingErrorReason msg] }

/-- The guarded phase sequence of `process_document` (the body of its
`try`/`except`), also returning the list of providers invoked.  WebSocket
progress notifications (`_notify_progress`) swallow every exception and
mutate nothing, so they are omitted. -/
def run_phases (env : Env) (ctx : Contexto) : Contexto × List ProviderCall :=
  match validate_document_check env with
  | Except.error e => (handle_validation_error ctx e, [.validatorCall])
  | Except.ok _ =>
    let ctxA := { ctx with processing_status := .PREVALIDATION }
    match execute_ocr env ctxA with
    | (ctxB, some e) => (handle_processing_error ctxB e, [.validatorCall, .ocrCall])
    | (ctxB, none) =>
      let ctxC := { ctxB with processing_status := .REVI }
      match execute_classification env ctxC with
      | (ctxD, some e) =>
        (handle_processing_error ctxD e, [.validatorCall, .ocrCall, .classifyCall])
      | (ctxD, none) =>
        let ctxE := { ctxD with processing_status := .CLASSIFICATION }
        let ctxF := execute_business_rules ctxE
        let ctxG := { ctxF with processing_status := .VALIDATION }
        if should_validate_identity_cl ctxG then
          let ctxH := execute_identity_validation env ctxG
          let ctxI := { ctxH with processing_status := .VALIDATION_IDENTIDAD_CL }
          ({ ctxI with processing_status := .COMPLETED },
            [.validatorCall, .ocrCall, .classifyCall, .boostrCall])
        else
          ({ ctxG with processing_status := .COMPLETED },
            [.validatorCall, .ocrCall, .classifyCall])

/-- `_extract_expiration_date`. -/
def extract_expiration_date (structured_data : List (String × String)) : Option String :=
  match structured_data.lookup "fecha_vencimiento" with
  | some v => some v
  | none =>
    match structured_data.lookup "expiration_date" with
    | some v => some v
    | none => structured_data.lookup "vencimiento"

/-- Mirror of the `ProcessedDocumentResult` pydantic model
(`core/schemas.py`) restricted to the fields `_build_final_result` fills. -/
structure ProcessedDocumentResult where
  platform_document_id : Option String
  original_file_name : String
  file_url : String
  document_type : String
  data_structure : List (String × String)
  expiration_date : Option String
  final_decision : FinalDecisionStatus
  observations : List RejectionReason
  processing_status : ProcessingStatus
  owner_user_name : String
  classification_method : String
  classification_by_ia : String
  total_processing_cost_usd : ℚ
deriving Repr

/-- `_build_final_result`. -/
def build_final_result (ctx : Contexto) (document : Document) : ProcessedDocumentResult where
  platform_document_id := document.platform_document_id
  original_file_name := document.file_name
  file_url := document.file_url
  document_type := ctx.document_type
  data_structure := ctx.structured_data
  expiration_date := extract_expiration_date ctx.structured_data
  final_decision := ctx.final_decision
  observations := ctx.rejection_reasons
  processing_status := ctx.processing_status
  owner_user_name := ctx.owner_user_name
  classification_method := if ctx.document_type ≠ "Desconocido" then "IA" else "UNKNOWN"
  classification_by_ia := ctx.document_type
  total_processing_cost_usd := ctx.total_cost_usd

/-- `DocumentProcessingPipeline.process_document`: create the context, run
the guarded phases, build the final result; also exposes the provider-call
trace. -/
def process_document (env : Env) (owner_user_name : String) (document : Document) :
    ProcessedDocumentResult × List ProviderCall :=
  let ctx0 := create_processing_context owner_user_name document
  let r := run_phases env ctx0
  (build_final_result r.1 document, r.2)

/-! ### DocumentContentValidator (`services/document_content_validator.py`) -/

/-- Lowercasing restricted to the character repertoire the validator's
accent table handles (Python `str.lower()` on ASCII plus the accented
vowels and Ñ appearing in `_normalize_name`). -/
def pyLowerChar (c : Char) : Char :=
  if 'A' ≤ c ∧ c ≤ 'Z' then Char.ofNat (c.toNat + 32)
  else if c = 'Á' then 'á'
  else if c = 'É' then 'é'
  else if c = 'Í' then 'í'
  else if c = 'Ó' then 'ó'
  else if c = 'Ú' then 'ú'
  else if c = 'Ä' then 'ä'
  else if c = 'Ë' then 'ë'
  else if c = 'Ï' then 'ï'
  else if c = 'Ö' then 'ö'
  else if c = 'Ü' then 'ü'
  else if c = 'Ñ' then 'ñ'
  else c

/-- Python `s.lower()` (same repertoire note as `pyLowerChar`). -/
def pyLower (s : String) : String := String.mk (s.toList.map pyLowerChar)

/-- Does `needle` occur at the head of `hay`. -/
def leadsWith : List Char → List Char → Bool
  | [], _ => true
  | _ :: _, [] => false
  | a :: as, b :: bs => a = b && leadsWith as bs

/-- Substring search over character lists. -/
def hasSubAux (needle : List Char) : List Char → Bool
  | [] => leadsWith needle []
  | c :: rest => leadsWith needle (c :: rest) || hasSubAux needle rest

/-- Python `needle in hay` on strings. -/
def strContains (hay needle : String) : Bool := hasSubAux needle.toList hay.toList

/-- `_types_match`: exact match, else the cedula family block (with the
frontal/reverso early `return False` cases), else the licencia and
pasaporte family checks. -/
def types_match (expected detected : String) : Bool :=
  let e := pyLower expected
  let d := pyLower detected
  if e = d then true
  else if (strContains e "cedula" || strContains e "cédula") &&
          (strContains d "cedula" || strContains d "cédula" || strContains d "identidad") then
    (if strContains e "frontal" && strContains d "reverso" then false
     else if strContains e "reverso" && strContains d "frontal" then false
     else true)
  else if strContains e "licencia" && strContains d "licencia" then true
  else if strContains e "pasaporte" && strContains d "pasaporte" then true
  else false

/-- A content-validation observation: `capa`/`razon`/`message` plus the
check-specific extra keys (`expected`, `found`, `similarity`, ...). -/
structure Obs where
  capa : String
  razon : String
  message : String
  extra : List (String × String) := []
deriving DecidableEq, Repr

/-- `_normalize_rut`: `re.sub` of `[.\s-]` to the empty string, then
lowercasing. -/
def normalize_rut (rut : String) : String :=
  if rut = "" then ""
  else String.mk (((rut.toList.filter
    (fun c => !(c = '.' || c = '-' || pyIsSpace c))).map pyLowerChar))

/-- `_validate_rut`. -/
def validate_rut_check (extracted_rut expected_rut : String) : Bool × Obs :=
  if normalize_rut extracted_rut = normalize_rut expected_rut then
    (true,
      { capa := "success"
        razon := "RUT verificado correctamente: " ++ expected_rut
        message := "RUT verified successfully" })
  else
    (false,
      { capa := "critical"
        razon := "RUT no coincide. Esperado: " ++ expected_rut ++ ", Encontrado: " ++ extracted_rut
        message := "RUT mismatch"
        extra := [("expected", expected_rut), ("found", extracted_rut)] })

/-- Splitting on a character predicate (every separator occurrence splits,
empty pieces kept), implemented structurally so terms reduce in the
kernel. -/
def pySplitAux (p : Char → Bool) : List Char → List Char → List String
  | [], acc => [String.mk acc.reverse]
  | c :: rest, acc =>
    if p c then String.mk acc.reverse :: pySplitAux p rest []
    else pySplitAux p rest (c :: acc)

/-- String version of `pySplitAux`. -/
def pySplitChars (p : Char → Bool) (s : String) : List String :=
  pySplitAux p s.toList []

/-- Python `s.split()`: split on whitespace runs, dropping empty pieces. -/
def pyWords (s : String) : List String :=
  (pySplitChars pyIsSpace s).filter (fun w => w ≠ "")

/-- The `replacements` table of `_normalize_name`: each accented lowercase
vowel (and ñ) is replaced by its unaccented counterpart after lowering. -/
def replaceAccentChar (c : Char) : Char :=
  if c = 'á' then 'a'
  else if c = 'é' then 'e'
  else if c = 'í' then 'i'
  else if c = 'ó' then 'o'
  else if c = 'ú' then 'u'
  else if c = 'ä' then 'a'
  else if c = 'ë' then 'e'
  else if c = 'ï' then 'i'
  else if c = 'ö' then 'o'
  else if c = 'ü' then 'u'
  else if c = 'ñ' then 'n'
  else c

/-- `_normalize_name`: lowercase, strip accents per the replacement table,
collapse internal whitespace. -/
def normalize_name (name : String) : String :=
  if name = "" then ""
  else String.intercalate " "
    (pyWords (String.mk ((pyLower name).toList.map replaceAccentChar)))

/-- `_calculate_name_similarity`: Jaccard similarity of the word sets. -/
def calculate_name_similarity (name1 name2 : String) : ℚ :=
  if name1 = "" || name2 = "" then 0
  else
    let words1 := (pyWords name1).toFinset
    let words2 := (pyWords name2).toFinset
    if words1 = ∅ || words2 = ∅ then 0
    else
      if words1 ∪ words2 = ∅ then 0
      else ((words1 ∩ words2).card : ℚ) / ((words1 ∪ words2).card : ℚ)

/-- `_validate_name`: join the non-empty extracted parts, normalize both
sides, require Jaccard similarity of at least 0.7. -/
def validate_name_check (extracted_nombre extracted_apellido_paterno
    extracted_apellido_materno expected_full_name : String) : Bool × Obs :=
  let extracted_full := pyStrip (String.intercalate " "
    (([extracted_nombre, extracted_apellido_paterno,
       extracted_apellido_materno]).filter (fun p => p ≠ "")))
  let similarity := calculate_name_similarity
    (normalize_name extracted_full) (normalize_name expected_full_name)
  if similarity ≥ 7/10 then
    (true,
      { capa := "success"
        razon := "Nombre verificado: " ++ expected_full_name
        message := "Name verified successfully"
        extra := [("similarity", toString similarity)] })
  else
    (false,
      { capa := "critical"
        razon := "Nombre no coincide. Esperado: " ++ expected_full_name ++
          ", Encontrado: " ++ extracted_full
        message := "Name mismatch"
        extra := [("expected", expected_full_name), ("found", extracted_full),
                  ("similarity", toString similarity)] })

/-- A `datetime` value: calendar date plus the intra-day part of the
instant (at an arbitrary fixed resolution).  `strptime` on the four
supported formats always yields midnight (`timeOfDay = 0`), while
`datetime.now()` — an explicit parameter of this type in the embedding —
carries the current time of day. -/
structure PyDate where
  year : Nat
  month : Nat
  day : Nat
  timeOfDay : Nat := 0
deriving DecidableEq, Repr

/-- `datetime` comparison: lexicographic on the calendar date and the
intra-day time (so a midnight expiry on the current day is already in the
past for any non-midnight `now`, as in the source). -/
def pyDateLt (a b : PyDate) : Bool :=
  a.year < b.year ||
  (a.year = b.year && (a.month < b.month ||
    (a.month = b.month && (a.day < b.day ||
      (a.day = b.day && a.timeOfDay < b.timeOfDay)))))

/-- All characters are ASCII digits and the string is non-empty. -/
def allDigits (s : String) : Bool :=
  s ≠ "" && s.toList.all (fun c => '0' ≤ c && c ≤ '9')

/-- Numeric value of an all-digit string. -/
def digitsToNat (s : String) : Nat :=
  s.toList.foldl (fun acc c => acc * 10 + (c.toNat - '0'.toNat)) 0

/-- Gregorian leap year, as validated by `datetime`. -/
def pyIsLeap (y : Nat) : Bool := y % 4 = 0 && (y % 100 ≠ 0 || y % 400 = 0)

/-- Days in a month, as validated by `datetime`. -/
def pyDaysInMonth (y m : Nat) : Nat :=
  if m = 2 then (if pyIsLeap y then 29 else 28)
  else if m = 4 || m = 6 || m = 9 || m = 11 then 30
  else 31

/-- `strptime` with a `sep`-separated `%Y`/`%m`/`%d` pattern: exactly three
digit groups — the year exactly four digits (CPython compiles `%Y` to the
regex `\d\d\d\d`), month and day one or two digits — validated against the
calendar (`datetime` requires year at least 1); a parsed value carries
midnight as its time of day. -/
def parseDateFields (s : String) (sep : Char) (yearFirst : Bool) : Option PyDate :=
  match pySplitChars (fun c => c = sep) s with
  | [a, b, c] =>
    let ys := if yearFirst then a else c
    let ds := if yearFirst then c else a
    if allDigits ys && allDigits b && allDigits ds &&
        ys.length = 4 && b.length ≤ 2 && ds.length ≤ 2 then
      let y := digitsToNat ys
      let m := digitsToNat b
      let d := digitsToNat ds
      if 1 ≤ y && 1 ≤ m && m ≤ 12 && 1 ≤ d && d ≤ pyDaysInMonth y m then
        some ⟨y, m, d, 0⟩
      else none
    else none
  | _ => none

/-- The `formats_to_try` loop of `_validate_expiry`: first of
`%Y-%m-%d`, `%d-%m-%Y`, `%d/%m/%Y`, `%Y/%m/%d` that parses. -/
def tryDateFormats (s : String) : Option PyDate :=
  match parseDateFields s '-' true with
  | some d => some d
  | none =>
    match parseDateFields s '-' false with
    | some d => some d
    | none =>
      match parseDateFields s '/' false with
      | some d => some d
      | none => parseDateFields s '/' true

/-- `_validate_expiry`: `(expired, observation)`; an unparseable string
yields `(false, warning)`, a past date `(true, critical)`, otherwise
`(false, success)`. -/
def validate_expiry (now : PyDate) (expiry_date_str : String) : Bool × Obs :=
  match tryDateFormats expiry_date_str with
  | none =>
    (false,
      { capa := "warning"
        razon := "No se pudo verificar fecha de vencimiento: " ++ expiry_date_str
        message := "Could not verify expiry date" })
  | some d =>
    if pyDateLt d now then
      (true,
        { capa := "critical"
          razon := "Documento vencido. Fecha de vencimiento: " ++ expiry_date_str
          message := "Document expired"
          extra := [("expiry_date", expiry_date_str)] })
    else
      (false,
        { capa := "success"
          razon := "Documento vigente hasta: " ++ expiry_date_str
          message := "Document valid"
          extra := [("expiry_date", expiry_date_str)] })

/-- Python truthiness of `dict.get(key)` for string-valued dicts: present
and non-empty. -/
def truthy (o : Option String) : Bool := (o.getD "") ≠ ""

/-- The document-type check of `validate_document_content` (both types
truthy and `_types_match` failing appends a critical observation and bumps
the critical counter). -/
def type_check_step (expected_document_type document_type : String)
    (acc : List Obs × Nat) : List Obs × Nat :=
  if truthy (some expected_document_type) && truthy (some document_type) then
    if !types_match expected_document_type document_type then
      (acc.1 ++
        [{ capa := "critical"
           razon := "Tipo de documento incorrecto. Esperado: " ++ expected_document_type ++
             ", Encontrado: " ++ document_type
           message := "Document type mismatch" }],
        acc.2 + 1)
    else acc
  else acc

/-- The RUT check of `validate_document_content` (runs only when both dicts
hold a truthy `rut`; a mismatch appends the observation and bumps the
critical counter; the success observation is dropped). -/
def rut_check_step (extracted_data applicant_data : List (String × String))
    (acc : List Obs × Nat) : List Obs × Nat :=
  if truthy (applicant_data.lookup "rut") && truthy (extracted_data.lookup "rut") then
    let r := validate_rut_check ((extracted_data.lookup "rut").getD "")
      ((applicant_data.lookup "rut").getD "")
    if !r.1 then (acc.1 ++ [r.2], acc.2 + 1) else acc
  else acc

/-- The name check of `validate_document_content` (runs only when both
dicts hold a truthy `nombre`; a mismatch appends the observation and bumps
the critical counter). -/
def name_check_step (extracted_data applicant_data : List (String × String))
    (acc : List Obs × Nat) : List Obs × Nat :=
  if truthy (applicant_data.lookup "nombre") && truthy (extracted_data.lookup "nombre") then
    let r := validate_name_check
      ((extracted_data.lookup "nombre").getD "")
      ((extracted_data.lookup "apellido_paterno").getD "")
      ((extracted_data.lookup "apellido_materno").getD "")
      ((applicant_data.lookup "nombre").getD "")
    if !r.1 then (acc.1 ++ [r.2], acc.2 + 1) else acc
  else acc

/-- The expiry check of `validate_document_content`: the observation of
`_validate_expiry` is appended (with a critical bump) only when `expired`
is true — in particular the "warning" observation of an unparseable date
is discarded here and no counter records it. -/
def expiry_check_step (now : PyDate) (extracted_data : List (String × String))
    (acc : List Obs × Nat) : List Obs × Nat :=
  if truthy (extracted_data.lookup "fecha_vencimiento") then
    let r := validate_expiry now ((extracted_data.lookup "fecha_vencimiento").getD "")
    if r.1 then (acc.1 ++ [r.2], acc.2 + 1) else acc
  else acc

/-- The decision policy at the end of `validate_document_content`:
critical errors force REJECTED, else warnings force MANUAL_REVIEW, else
APPROVED, each prepending its summary observation. -/
def content_decision (warnings : Nat) (acc : List Obs × Nat) : String × List Obs :=
  if acc.2 > 0 then
    ("REJECTED",
      { capa := "critical"
        razon := "Documento rechazado por " ++ toString acc.2 ++ " error(es) crítico(s)"
        message := "Document rejected due to " ++ toString acc.2 ++
          " critical error(s)" } :: acc.1)
  else if warnings > 0 then
    ("MANUAL_REVIEW",
      { capa := "warning"
        razon := "Revisión manual requerida (" ++ toString warnings ++ " advertencia(s))"
        message := "Manual review required" } :: acc.1)
  else
    ("APPROVED",
      { capa := "success"
        razon := "Documento aprobado. Todos los datos coinciden correctamente."
        message := "Document approved. All data matches correctly." } :: acc.1)

/-- `DocumentContentValidator.validate_document_content`: the four
independent checks accumulate `(observations, critical_errors)` from
`([], 0)` in source order; the `warnings` counter is initialized but never
incremented by any check (mirroring the source), and the final decision
policy is applied to the accumulated state. -/
def validate_document_content (now : PyDate)
    (extracted_data applicant_data : List (String × String))
    (expected_document_type document_type : String) :
    String × List Obs :=
  let warnings : Nat := 0
  content_decision warnings
    (expiry_check_step now extracted_data
      (name_check_step extracted_data applicant_data
        (rut_check_step extracted_data applicant_data
          (type_check_step expected_document_type document_type ([], 0)))))

/-! ### BoostrService (`services/boostr_service.py`) -/

/-- Parsed JSON body of a Boostr response, read with `.get` defaults
(`valid` default `False`, `confidence` default `0.0`, `details` default
`{}`). -/
structure BoostrBody where
  valid : Option Bool
  confidence : Option ℚ
  details : Option (List (String × String))
deriving DecidableEq, Repr

/-- Outcome of the `requests.post` call inside `validate_rut`: either a
response with a status code, parsed body and raw text, or a raised
`requests.RequestException`. -/
inductive HttpOutcome where
  | response (status : Nat) (body : BoostrBody) (text : String)
  | requestException (msg : String)
deriving DecidableEq, Repr

/-- `BoostrService.validate_rut` over the HTTP outcome: 200 parses the
body, 404 returns the synthetic not-found result, any other status raises
(the inner `raise` is re-wrapped by the outer `except Exception` handler
with the `Error inesperado` prefix; a `requests.RequestException` raised by
the call itself is wrapped by its own handler and not re-caught).  The rut
and nombre arguments only shape the outgoing payload. -/
def boostr_validate_rut (_rut _nombre : String) (_fecha_nacimiento : Option String)
    (outcome : HttpOutcome) : Except String BoostrResult :=
  match outcome with
  | .requestException e => Except.error ("Error conectando con Boostr API: " ++ e)
  | .response status body text =>
    if status = 200 then
      Except.ok
        { valid := body.valid.getD false
          confidence := body.confidence.getD 0
          details := body.details.getD []
          source := "boostr" }
    else if status = 404 then
      Except.ok
        { valid := false
          confidence := 0
          details := [("error", "RUT no encontrado en base de datos")]
          source := "boostr" }
    else
      Except.error ("Error inesperado en validación Boostr: " ++
        "Boostr API error: " ++ toString status ++ " - " ++ text)

/-! ### OCRService result polling (`services/ocr_service.py`) -/

/-- One backend reply to a poll of the `analyzeResults` endpoint: either a
raised `requests.RequestException` or a JSON result whose `status` field may
be absent. -/
inductive PollResponse where
  | httpError (msg : String)
  | reply (status : Option String) (payload : RawOcr)

/-- `_parse_ocr_result`: concatenate the text of all lines across pages
with newlines, count them, and average the per-line confidences. -/
def parse_ocr_result (raw : RawOcr) : OcrResult :=
  let lines := (raw.pages.map (fun page => page.map (fun l => l.text))).flatten
  let confidences := (raw.pages.map (fun page => page.filterMap (fun l => l.confidence))).flatten
  { extracted_text := String.intercalate "\n" lines
    lines_count := lines.length
    confidence := if confidences = [] then 0 else confidences.sum / (confidences.length : ℚ) }

/-- The `while attempt < max_attempts` loop of `_get_ocr_results`
(`max_attempts = 30`), also counting how many polls were performed.  The
1-second `time.sleep` between polls has no observable effect in this model.
A non-terminal status falls through to the next attempt; the `raise` for a
failed analysis is not a `requests.RequestException`, so it escapes the
per-iteration handler, as in the source. -/
def ocr_poll (responses : Nat → PollResponse) (attempt : Nat) :
    Except String OcrResult × Nat :=
  if _h : attempt < 30 then
    match responses attempt with
    | .httpError e => (Except.error ("Error al obtener resultados OCR: " ++ e), 1)
    | .reply status payload =>
      if status = some "succeeded" then (Except.ok (parse_ocr_result payload), 1)
      else if status = some "failed" then (Except.error "El análisis OCR falló", 1)
      else
        let r := ocr_poll responses (attempt + 1)
        (r.1, r.2 + 1)
  else (Except.error "Timeout esperando resultados de OCR", 0)
termination_by 30 - attempt

/-- `_get_ocr_results`: run the polling loop from attempt 0. -/
def get_ocr_results (responses : Nat → PollResponse) : Except String OcrResult × Nat :=
  ocr_poll responses 0

/-- A poll reply that keeps the loop going: a JSON result whose status is
neither `succeeded` nor `failed`. -/
def pendingReply (r : PollResponse) : Prop :=
  ∃ status payload, r = PollResponse.reply status payload ∧
    status ≠ some "succeeded" ∧ status ≠ some "failed"

/-! ### Concrete inputs used by witnesses and counterexamples -/

/-- A concrete document descriptor used by concrete-input instantiations. -/
def sampleDoc : Document := ⟨"https://example.com/cedula.pdf", "cedula.pdf", some "doc-1"⟩

/-- An `Env` in which the pre-validation fails (every other provider would
raise if reached). -/
def envInvalidDoc : Env where
  validator := (false, "URL del documento no proporcionada")
  ocr := Except.error "unreachable"
  classify := Except.error "unreachable"
  extractData := Except.error "unreachable"
  boostr := Except.error "unreachable"

/-- An `Env` for a run whose classification comes back "Desconocido" with
confidence 0 over non-blank text. -/
def envUnknownType : Env where
  validator := (true, "Documento válido")
  ocr := Except.ok ⟨"RUN 12.345.678-9", 1, 9/10⟩
  classify := Except.ok ⟨some "Desconocido", some 0⟩
  extractData := Except.ok []
  boostr := Except.error "unreachable"

/-- An `Env` for a run classified as the front-side national ID whose
Boostr validation reports the RUT invalid. -/
def envCedulaInvalidRut : Env where
  validator := (true, "Documento válido")
  ocr := Except.ok ⟨"REPUBLICA DE CHILE", 1, 1⟩
  classify := Except.ok ⟨some "Cédula de Identidad CL (Frontal)", some 1⟩
  extractData := Except.ok [("rut", "12.345.678-9")]
  boostr := Except.ok ⟨false, 0, [("error", "RUT no encontrado en base de datos")], "boostr"⟩

/-- A fixed reference instant for content-validation instantiations
(midday on 2026-10-12). -/
def contentNow : PyDate := ⟨2026, 10, 12, 43200⟩

/-- Extracted data whose expiry string matches none of the four formats. -/
def unparseableExpiryData : List (String × String) := [("fecha_vencimiento", "not-a-date")]

/-- A backend that never reaches a terminal status. -/
def pendingForever (_ : Nat) : PollResponse := PollResponse.reply (some "running") ⟨[]⟩

/-- A one-page OCR payload. -/
def rawOcrSample : RawOcr := ⟨[[⟨"REPUBLICA DE CHILE", none⟩, ⟨"CEDULA DE IDENTIDAD", none⟩]]⟩

/-- A backend that succeeds on the first poll. -/
def succeedsAtOnce (_ : Nat) : PollResponse := PollResponse.reply (some "succeeded") rawOcrSample

/-- A backend that reports a failed analysis on the first poll. -/
def failsAtOnce (_ : Nat) : PollResponse := PollResponse.reply (some "failed") ⟨[]⟩

/-! ### Helper lemmas -/

theorem content_decision_zero_warnings (acc : List Obs × Nat) :
    (content_decision 0 acc).1 = "APPROVED" ∨ (content_decision 0 acc).1 = "REJECTED" := by
  by_cases h : acc.2 > 0 <;> simp [content_decision, h]

theorem execute_ocr_frame (env : Env) (ctx : Contexto) :
    ((execute_ocr env ctx).1).rejection_reasons = ctx.rejection_reasons ∧
    ((execute_ocr env ctx).1).final_decision = ctx.final_decision ∧
    ((execute_ocr env ctx).1).document_type = ctx.document_type := by
  unfold execute_ocr
  cases env.ocr <;> simp

theorem execute_classification_frame (env : Env) (ctx : Contexto) :
    ((execute_classification env ctx).1).rejection_reasons = ctx.rejection_reasons ∧
    ((execute_classification env ctx).1).final_decision = ctx.final_decision := by
  unfold execute_classification
  cases env.classify with
  | error e => simp
  | ok c =>
    simp only []
    split
    · cases env.extractData <;> simp
    · simp

theorem execute_classification_snd_ok (env : Env) (ctx : Contexto) (c : Classification)
    (sd : List (String × String)) (hcls : env.classify = Except.ok c)
    (hext : env.extractData = Except.ok sd) :
    (execute_classification env ctx).2 = none := by
  simp only [execute_classification, hcls]
  split <;> simp [hext]

theorem execute_classification_doc_type (env : Env) (ctx : Contexto) (c : Classification)
    (hcls : env.classify = Except.ok c) :
    ((execute_classification env ctx).1).document_type = c.document_type.getD "Desconocido" := by
  simp only [execute_classification, hcls]
  split
  · cases hext : env.extractData <;> simp
  · simp

theorem execute_business_rules_doc_type (ctx : Contexto) :
    (execute_business_rules ctx).document_type = ctx.document_type := by
  simp only [execute_business_rules]
  split <;> split <;> split <;> rfl

theorem execute_business_rules_inv (ctx : Contexto) (h : ctx.rejection_reasons = []) :
    (execute_business_rules ctx).rejection_reasons ≠ [] →
    (execute_business_rules ctx).final_decision ≠ FinalDecisionStatus.APPROVED := by
  simp only [execute_business_rules]
  by_cases h1 : ctx.confidence_score < 7/10 <;>
    by_cases h2 : isBlank ctx.extracted_text = true <;>
      simp [h1, h2, h]

theorem execute_identity_validation_inv (env : Env) (ctx : Contexto)
    (h : ctx.rejection_reasons ≠ [] → ctx.final_decision ≠ FinalDecisionStatus.APPROVED) :
    (execute_identity_validation env ctx).rejection_reasons ≠ [] →
    (execute_identity_validation env ctx).final_decision ≠ FinalDecisionStatus.APPROVED := by
  unfold execute_identity_validation
  cases env.boostr with
  | error e => simp
  | ok vr =>
    by_cases hv : vr.valid
    · simpa [hv] using h
    · simp [hv]

theorem run_phases_status (env : Env) (ctx : Contexto) :
    (run_phases env ctx).1.processing_status = ProcessingStatus.COMPLETED ∨
    (run_phases env ctx).1.processing_status = ProcessingStatus.FAILED := by
  simp only [run_phases]
  split
  · simp [handle_validation_error]
  · split
    · simp [handle_processing_error]
    · split
      · simp [handle_processing_error]
      · split
        · simp
        · simp

theorem run_phases_inv (env : Env) (ctx : Contexto) (h : ctx.rejection_reasons = []) :
    (run_phases env ctx).1.rejection_reasons ≠ [] →
    (run_phases env ctx).1.final_decision ≠ FinalDecisionStatus.APPROVED := by
  simp only [run_phases]
  split
  · simp [handle_validation_error]
  · rename_i u hval
    split
    · simp [handle_processing_error]
    · rename_i ctxB hocr
      split
      · simp [handle_processing_error]
      · rename_i ctxD hcls
        have hB : ctxB.rejection_reasons = [] := by
          have := (execute_ocr_frame env { ctx with processing_status := .PREVALIDATION }).1
          rw [hocr] at this
          simpa [h] using this
        have hD : ctxD.rejection_reasons = [] := by
          have := (execute_classification_frame env
            { ctxB with processing_status := .REVI }).1
          rw [hcls] at this
          simpa [hB] using this
        have hbr := execute_business_rules_inv
          { ctxD with processing_status := .CLASSIFICATION } (by simpa using hD)
        split
        · intro hne
          have := execute_identity_validation_inv env
            { execute_business_rules { ctxD with processing_status := .CLASSIFICATION } with
                processing_status := .VALIDATION }
            (by simpa using hbr)
          simp only [Contexto.mk.injEq] at hne ⊢
          simpa using this (by simpa using hne)
        · intro hne
          simpa using hbr (by simpa using hne)

/-! ### Claim theorems -/

/-- C1: `process_document` is a total function of the owner name, the
document descriptor and the provider outcomes (every provider failure mode
is an `Except.error` value of `Env`, absorbed by the guarded phases), and
its result always carries a definite `final_decision` — one of
APPROVED/REJECTED/MANUAL_REVIEW — and a definite terminal
`processing_status` (COMPLETED or FAILED). -/
theorem process_document_total_definite (env : Env) (owner : String) (doc : Document) :
    ((process_document env owner doc).1.final_decision = FinalDecisionStatus.APPROVED ∨
     (process_document env owner doc).1.final_decision = FinalDecisionStatus.REJECTED ∨
     (process_document env owner doc).1.final_decision = FinalDecisionStatus.MANUAL_REVIEW) ∧
    ((process_document env owner doc).1.processing_status = ProcessingStatus.COMPLETED ∨
     (process_document env owner doc).1.processing_status = ProcessingStatus.FAILED) := by
  constructor
  · cases h : (process_document env owner doc).1.final_decision <;> simp
  · have := run_phases_status env (create_processing_context owner doc)
    simpa [process_document, build_final_result] using this

/-- C2: when `DocumentValidator.validate_document` reports invalid, the
pipeline result has `processing_status = FAILED` and
`final_decision = REJECTED`, its observations consist of the appended
validation-failure rejection reason, and the OCR provider is never
invoked in that run. -/
theorem validator_invalid_fails_without_ocr (env : Env) (owner : String) (doc : Document)
    (h : env.validator.1 = false) :
    (process_document env owner doc).1.processing_status = ProcessingStatus.FAILED ∧
    (process_document env owner doc).1.final_decision = FinalDecisionStatus.REJECTED ∧
    (process_document env owner doc).1.observations =
      [validationErrorReason ("Documento no válido: " ++ env.validator.2)] ∧
    ProviderCall.ocrCall ∉ (process_document env owner doc).2 := by
  simp [process_document, run_phases, validate_document_check, h,
    handle_validation_error, build_final_result, create_processing_context]

/-- Witness for C2 at a concrete environment. -/
theorem validator_invalid_fails_without_ocr_witness :
    (process_document envInvalidDoc "Owner" sampleDoc).1.processing_status = ProcessingStatus.FAILED ∧
    (process_document envInvalidDoc "Owner" sampleDoc).1.final_decision = FinalDecisionStatus.REJECTED ∧
    (process_document envInvalidDoc "Owner" sampleDoc).1.observations =
      [validationErrorReason ("Documento no válido: " ++ envInvalidDoc.validator.2)] ∧
    ProviderCall.ocrCall ∉ (process_document envInvalidDoc "Owner" sampleDoc).2 :=
  validator_invalid_fails_without_ocr envInvalidDoc "Owner" sampleDoc rfl

/-- C3: any context whose extracted text is blank leaves the business-rules
stage with `final_decision = REJECTED` regardless of the confidence score,
and when the low-confidence condition also fires each check appends its own
rejection reason (low-confidence first, blank-text second) while REJECTED
still wins over MANUAL_REVIEW. -/
theorem blank_text_forces_rejection (ctx : Contexto)
    (hb : isBlank ctx.extracted_text = true) :
    (execute_business_rules ctx).final_decision = FinalDecisionStatus.REJECTED ∧
    (ctx.confidence_score < 7/10 →
      (execute_business_rules ctx).rejection_reasons =
        ctx.rejection_reasons ++ [lowConfidenceReason ctx.confidence_score, noTextReason]) := by
  by_cases h1 : ctx.confidence_score < 7/10 <;>
    simp [execute_business_rules, h1, hb]

/-- Witness for C3 at a concrete context (the fresh context: empty text,
confidence 0). -/
theorem blank_text_forces_rejection_witness :
    (execute_business_rules (create_processing_context "Owner" sampleDoc)).final_decision =
      FinalDecisionStatus.REJECTED ∧
    (execute_business_rules (create_processing_context "Owner" sampleDoc)).rejection_reasons =
      (create_processing_context "Owner" sampleDoc).rejection_reasons ++
        [lowConfidenceReason (create_processing_context "Owner" sampleDoc).confidence_score,
         noTextReason] := by
  have h := blank_text_forces_rejection (create_processing_context "Owner" sampleDoc) (by decide)
  exact ⟨h.1, h.2 (by norm_num [create_processing_context])⟩

/-- C4: rejection reasons block approval throughout a pipeline invocation:
the final result never pairs non-empty observations with APPROVED; the
business rules preserve this from an empty-reasons entry state and only set
APPROVED with an empty reasons list; the identity stage never leaves
APPROVED when it appended a reason; both error handlers always leave a
non-APPROVED decision. -/
theorem rejection_reasons_never_approved :
    (∀ (env : Env) (owner : String) (doc : Document),
      (process_document env owner doc).1.observations ≠ [] →
      (process_document env owner doc).1.final_decision ≠ FinalDecisionStatus.APPROVED) ∧
    (∀ ctx : Contexto, ctx.rejection_reasons = [] →
      (execute_business_rules ctx).rejection_reasons ≠ [] →
      (execute_business_rules ctx).final_decision ≠ FinalDecisionStatus.APPROVED) ∧
    (∀ ctx : Contexto, ctx.final_decision ≠ FinalDecisionStatus.APPROVED →
      (execute_business_rules ctx).final_decision = FinalDecisionStatus.APPROVED →
      (execute_business_rules ctx).rejection_reasons = []) ∧
    (∀ (env : Env) (ctx : Contexto),
      (execute_identity_validation env ctx).rejection_reasons ≠ ctx.rejection_reasons →
      (execute_identity_validation env ctx).final_decision ≠ FinalDecisionStatus.APPROVED) ∧
    (∀ (ctx : Contexto) (msg : String),
      (handle_validation_error ctx msg).final_decision ≠ FinalDecisionStatus.APPROVED ∧
      (handle_processing_error ctx msg).final_decision ≠ FinalDecisionStatus.APPROVED) := by
  refine ⟨?_, ?_, ?_, ?_, ?_⟩
  · intro env owner doc
    have := run_phases_inv env (create_processing_context owner doc) rfl
    simpa [process_document, build_final_result] using this
  · exact execute_business_rules_inv
  · intro ctx hdec
    by_cases h1 : ctx.confidence_score < 7/10 <;>
      by_cases h2 : isBlank ctx.extracted_text = true <;>
        by_cases h3 : ctx.rejection_reasons = [] <;>
          simp [execute_business_rules, h1, h2, h3, hdec]
  · intro env ctx hne
    revert hne
    unfold execute_identity_validation
    cases env.boostr with
    | error e => simp
    | ok vr =>
      by_cases hv : vr.valid <;> simp [hv]
  · intro ctx msg
    simp [handle_validation_error, handle_processing_error]

/-- Witness for C4 at concrete inputs (invalid-document run for the
result-level invariant; fresh context for the business-rules and handler
conjuncts). -/
theorem rejection_reasons_never_approved_witness :
    (process_document envInvalidDoc "Owner" sampleDoc).1.final_decision ≠
      FinalDecisionStatus.APPROVED ∧
    (execute_business_rules (create_processing_context "Owner" sampleDoc)).final_decision ≠
      FinalDecisionStatus.APPROVED ∧
    (handle_validation_error (create_processing_context "Owner" sampleDoc) "msg").final_decision ≠
      FinalDecisionStatus.APPROVED :=
  ⟨rejection_reasons_never_approved.1 envInvalidDoc "Owner" sampleDoc
     (by simp [process_document, run_phases, validate_document_check, envInvalidDoc,
       handle_validation_error, build_final_result, create_processing_context]),
   rejection_reasons_never_approved.2.1 (create_processing_context "Owner" sampleDoc)
     rfl
     (by simp [execute_business_rules, create_processing_context, isBlank, pyStrip]),
   (rejection_reasons_never_approved.2.2.2.2 (create_processing_context "Owner" sampleDoc)
     "msg").1⟩

/-- C6: a context entering the business rules with no prior rejection
reasons, confidence below 0.7 and non-blank text gets exactly the
low-confidence rejection reason and decision MANUAL_REVIEW; at pipeline
level, a run classified as "Desconocido" with confidence 0.0 over non-blank
extracted text ends with final decision MANUAL_REVIEW. -/
theorem low_confidence_yields_manual_review :
    (∀ ctx : Contexto, ctx.rejection_reasons = [] →
      ctx.confidence_score < 7/10 →
      isBlank ctx.extracted_text = false →
      (execute_business_rules ctx).final_decision = FinalDecisionStatus.MANUAL_REVIEW ∧
      (execute_business_rules ctx).rejection_reasons =
        [lowConfidenceReason ctx.confidence_score]) ∧
    (∀ (env : Env) (owner : String) (doc : Document) (o : OcrResult),
      env.validator.1 = true →
      env.ocr = Except.ok o →
      isBlank o.extracted_text = false →
      env.classify = Except.ok ⟨some "Desconocido", some 0⟩ →
      (process_document env owner doc).1.final_decision = FinalDecisionStatus.MANUAL_REVIEW) := by
  constructor
  · intro ctx h0 h1 h2
    simp [execute_business_rules, h0, h1, h2]
  · intro env owner doc o hval hocr hblank hcls
    simp [process_document, run_phases, validate_document_check, hval,
      execute_ocr, hocr, execute_classification, hcls, execute_business_rules,
      hblank, build_final_result, create_processing_context,
      should_validate_identity_cl, show (0:ℚ) < 7/10 by norm_num]

/-- Witness for C6 at a concrete context and environment. -/
theorem low_confidence_yields_manual_review_witness :
    (execute_business_rules
      { create_processing_context "Owner" sampleDoc with
          extracted_text := "RUN 12.345.678-9" }).final_decision =
      FinalDecisionStatus.MANUAL_REVIEW ∧
    (process_document envUnknownType "Owner" sampleDoc).1.final_decision =
      FinalDecisionStatus.MANUAL_REVIEW :=
  ⟨(low_confidence_yields_manual_review.1
      { create_processing_context "Owner" sampleDoc with
          extracted_text := "RUN 12.345.678-9" } rfl
      (by norm_num [create_processing_context]) (by decide)).1,
   low_confidence_yields_manual_review.2 envUnknownType "Owner" sampleDoc
     ⟨"RUN 12.345.678-9", 1, 9/10⟩ rfl rfl (by decide) rfl⟩

/-- C5: the identity-validation stage is gated exactly on
`document_type = "Cédula de Identidad CL (Frontal)"`; whenever the stage
runs and Boostr reports `valid=false`, the Boostr rejection reason is
appended and the final decision is forced to REJECTED — for an arbitrary
entering context (in particular one business rules had approved), and also
end-to-end through `process_document`. -/
theorem identity_validation_gate_and_rejection :
    (∀ ctx : Contexto, should_validate_identity_cl ctx = true ↔
      ctx.document_type = "Cédula de Identidad CL (Frontal)") ∧
    (∀ (env : Env) (ctx : Contexto) (vr : BoostrResult),
      env.boostr = Except.ok vr → vr.valid = false →
      (execute_identity_validation env ctx).final_decision = FinalDecisionStatus.REJECTED ∧
      (execute_identity_validation env ctx).rejection_reasons =
        ctx.rejection_reasons ++ [boostrInvalidReason vr.details]) ∧
    (∀ (env : Env) (owner : String) (doc : Document) (o : OcrResult)
       (c : Classification) (sd : List (String × String)) (vr : BoostrResult),
      env.validator.1 = true →
      env.ocr = Except.ok o →
      env.classify = Except.ok c →
      c.document_type = some "Cédula de Identidad CL (Frontal)" →
      env.extractData = Except.ok sd →
      env.boostr = Except.ok vr →
      vr.valid = false →
      (process_document env owner doc).1.final_decision = FinalDecisionStatus.REJECTED ∧
      ProviderCall.boostrCall ∈ (process_document env owner doc).2) := by
  refine ⟨?_, ?_, ?_⟩
  · intro ctx
    simp [should_validate_identity_cl]
  · intro env ctx vr hb hv
    simp [execute_identity_validation, hb, hv]
  · intro env owner doc o c sd vr hval hocr hcls hdt hext hb hv
    have h1 : validate_document_check env = Except.ok () := by
      simp [validate_document_check, hval]
    unfold process_document
    rcases hE : execute_ocr env
        { create_processing_context owner doc with processing_status := .PREVALIDATION }
      with ⟨ctxB, ob⟩
    obtain rfl : ob = none := by
      have h := congrArg Prod.snd hE
      simp only [execute_ocr, hocr] at h
      exact h.symm
    rcases hC : execute_classification env { ctxB with processing_status := .REVI }
      with ⟨ctxD, oc⟩
    obtain rfl : oc = none := by
      have h := congrArg Prod.snd hC
      rw [execute_classification_snd_ok env _ c sd hcls hext] at h
      exact h.symm
    have hdoc := execute_classification_doc_type env
      { ctxB with processing_status := .REVI } c hcls
    rw [hC] at hdoc
    have hgate : should_validate_identity_cl
        { execute_business_rules { ctxD with processing_status := .CLASSIFICATION } with
            processing_status := .VALIDATION } = true := by
      simp only [should_validate_identity_cl] at hdoc ⊢
      simp [execute_business_rules_doc_type, hdoc, hdt]
    simp only [run_phases, h1, hE, hC, hgate, if_true]
    simp [execute_identity_validation, hb, hv, build_final_result]

/-- Witness for C5 at a concrete environment (classifier reports the
front-side national ID, Boostr reports the RUT invalid). -/
theorem identity_validation_gate_and_rejection_witness :
    (process_document envCedulaInvalidRut "Owner" sampleDoc).1.final_decision =
      FinalDecisionStatus.REJECTED ∧
    ProviderCall.boostrCall ∈ (process_document envCedulaInvalidRut "Owner" sampleDoc).2 :=
  identity_validation_gate_and_rejection.2.2 envCedulaInvalidRut "Owner" sampleDoc
    ⟨"REPUBLICA DE CHILE", 1, 1⟩ ⟨some "Cédula de Identidad CL (Frontal)", some 1⟩
    [("rut", "12.345.678-9")]
    ⟨false, 0, [("error", "RUT no encontrado en base de datos")], "boostr"⟩
    rfl rfl rfl rfl rfl rfl rfl

/-- C8: for every input, `validate_document_content` decides APPROVED or
REJECTED, never MANUAL_REVIEW: the `warnings` counter is initialized to
zero and no check increments it, so the warning branch of the decision
policy is unreachable. -/
theorem content_decision_never_manual_review (now : PyDate)
    (extracted_data applicant_data : List (String × String))
    (expected_document_type document_type : String) :
    (validate_document_content now extracted_data applicant_data
      expected_document_type document_type).1 = "APPROVED" ∨
    (validate_document_content now extracted_data applicant_data
      expected_document_type document_type).1 = "REJECTED" := by
  simp only [validate_document_content]
  exact content_decision_zero_warnings _

/-- C7 counterexample: for the concrete input whose extracted data carries
the unparseable expiry string "not-a-date" (and no other check fires), the
decision is not MANUAL_REVIEW and no warning observation is returned — the
claim's expected warning observation and MANUAL_REVIEW decision do not
occur. -/
theorem unparseable_expiry_counterexample :
    (validate_document_content contentNow unparseableExpiryData [] "" "").1 ≠ "MANUAL_REVIEW" ∧
    ∀ o ∈ (validate_document_content contentNow unparseableExpiryData [] "" "").2,
      o.capa ≠ "warning" := by
  decide

/-- C7 (amended): when the extracted data holds a non-empty expiry string
matching none of the four formats and the other checks produce no critical
observation, `_validate_expiry` itself builds a "warning" observation, but
the caller discards it (it appends the observation only when `expired` is
true) and the `warnings` counter stays zero, so the returned observations
contain no warning entry and the decision is APPROVED, not MANUAL_REVIEW. -/
theorem unparseable_expiry_discarded (now : PyDate)
    (extracted_data applicant_data : List (String × String))
    (expected_document_type document_type : String)
    (_hexp : truthy (extracted_data.lookup "fecha_vencimiento") = true)
    (hunp : tryDateFormats ((extracted_data.lookup "fecha_vencimiento").getD "") = none)
    (htype : expected_document_type = "" ∨ document_type = "" ∨
      types_match expected_document_type document_type = true)
    (hrut : truthy (applicant_data.lookup "rut") = false ∨
      truthy (extracted_data.lookup "rut") = false ∨
      (validate_rut_check ((extracted_data.lookup "rut").getD "")
        ((applicant_data.lookup "rut").getD "")).1 = true)
    (hname : truthy (applicant_data.lookup "nombre") = false ∨
      truthy (extracted_data.lookup "nombre") = false ∨
      (validate_name_check ((extracted_data.lookup "nombre").getD "")
        ((extracted_data.lookup "apellido_paterno").getD "")
        ((extracted_data.lookup "apellido_materno").getD "")
        ((applicant_data.lookup "nombre").getD "")).1 = true) :
    (validate_document_content now extracted_data applicant_data
      expected_document_type document_type).1 = "APPROVED" ∧
    (∀ o ∈ (validate_document_content now extracted_data applicant_data
      expected_document_type document_type).2, o.capa ≠ "warning") ∧
    (validate_expiry now ((extracted_data.lookup "fecha_vencimiento").getD "")).2.capa =
      "warning" := by
  have hval : validate_expiry now ((extracted_data.lookup "fecha_vencimiento").getD "") =
      (false,
        { capa := "warning"
          razon := "No se pudo verificar fecha de vencimiento: " ++
            ((extracted_data.lookup "fecha_vencimiento").getD "")
          message := "Could not verify expiry date" }) := by
    simp [validate_expiry, hunp]
  have h1 : type_check_step expected_document_type document_type ([], 0) = ([], 0) := by
    rcases htype with h | h | h <;> simp [type_check_step, truthy, h]
  have h2 : rut_check_step extracted_data applicant_data ([], 0) = ([], 0) := by
    rcases hrut with h | h | h <;> simp [rut_check_step, h]
  have h3 : name_check_step extracted_data applicant_data ([], 0) = ([], 0) := by
    rcases hname with h | h | h <;> simp [name_check_step, h]
  have h4 : expiry_check_step now extracted_data ([], 0) = ([], 0) := by
    simp [expiry_check_step, hval]
  have main : validate_document_content now extracted_data applicant_data
      expected_document_type document_type =
      ("APPROVED",
        [{ capa := "success"
           razon := "Documento aprobado. Todos los datos coinciden correctamente."
           message := "Document approved. All data matches correctly." }]) := by
    simp only [validate_document_content]
    rw [h1, h2, h3, h4]
    simp [content_decision]
  refine ⟨?_, ?_, ?_⟩
  · rw [main]
  · rw [main]
    intro o ho
    simp only [List.mem_singleton] at ho
    subst ho
    decide
  · rw [hval]

/-- Witness for the amended C7 at the concrete unparseable-expiry input. -/
theorem unparseable_expiry_discarded_witness :
    (validate_document_content contentNow unparseableExpiryData [] "" "").1 = "APPROVED" ∧
    (∀ o ∈ (validate_document_content contentNow unparseableExpiryData [] "" "").2,
      o.capa ≠ "warning") ∧
    (validate_expiry contentNow
      ((unparseableExpiryData.lookup "fecha_vencimiento").getD "")).2.capa = "warning" :=
  unparseable_expiry_discarded contentNow unparseableExpiryData [] "" ""
    (by decide) (by decide) (Or.inl rfl) (Or.inl (by decide)) (Or.inl (by decide))

/-- C9: `BoostrService.validate_rut` parses an HTTP 200 body into the
`{valid, confidence, details}` result, turns an HTTP 404 into a returned
(not raised) well-formed not-found result with `valid=false`, confidence 0
and `details.error` set, and raises on any other status. -/
theorem boostr_validate_rut_status_handling (rut nombre : String)
    (fecha_nacimiento : Option String) (st : Nat) (body : BoostrBody) (text : String) :
    (st = 200 →
      boostr_validate_rut rut nombre fecha_nacimiento (HttpOutcome.response st body text) =
        Except.ok
          { valid := body.valid.getD false
            confidence := body.confidence.getD 0
            details := body.details.getD []
            source := "boostr" }) ∧
    (st = 404 →
      boostr_validate_rut rut nombre fecha_nacimiento (HttpOutcome.response st body text) =
        Except.ok
          { valid := false
            confidence := 0
            details := [("error", "RUT no encontrado en base de datos")]
            source := "boostr" }) ∧
    (st ≠ 200 → st ≠ 404 →
      ∃ e, boostr_validate_rut rut nombre fecha_nacimiento
        (HttpOutcome.response st body text) = Except.error e) := by
  refine ⟨?_, ?_, ?_⟩
  · intro h
    simp [boostr_validate_rut, h]
  · intro h
    simp [boostr_validate_rut, h]
  · intro h1 h2
    simp [boostr_validate_rut, h1, h2]

/-- Witness for C9 at concrete statuses 200, 404 and 500. -/
theorem boostr_validate_rut_status_handling_witness :
    (boostr_validate_rut "12.345.678-9" "Juan Perez" none
      (HttpOutcome.response 200 ⟨some true, some 1, some []⟩ "") =
      Except.ok { valid := (some true).getD false, confidence := (some (1:ℚ)).getD 0,
                  details := (some ([] : List (String × String))).getD [],
                  source := "boostr" }) ∧
    (boostr_validate_rut "12.345.678-9" "Juan Perez" none
      (HttpOutcome.response 404 ⟨none, none, none⟩ "") =
      Except.ok { valid := false, confidence := 0,
                  details := [("error", "RUT no encontrado en base de datos")],
                  source := "boostr" }) ∧
    (∃ e, boostr_validate_rut "12.345.678-9" "Juan Perez" none
      (HttpOutcome.response 500 ⟨none, none, none⟩ "boom") = Except.error e) :=
  ⟨(boostr_validate_rut_status_handling "12.345.678-9" "Juan Perez" none 200
      ⟨some true, some 1, some []⟩ "").1 rfl,
   (boostr_validate_rut_status_handling "12.345.678-9" "Juan Perez" none 404
      ⟨none, none, none⟩ "").2.1 rfl,
   (boostr_validate_rut_status_handling "12.345.678-9" "Juan Perez" none 500
      ⟨none, none, none⟩ "boom").2.2 (by decide) (by decide)⟩

theorem ocr_poll_count_le_aux (responses : Nat → PollResponse) :
    ∀ fuel attempt, 30 - attempt ≤ fuel → (ocr_poll responses attempt).2 ≤ 30 - attempt := by
  intro fuel
  induction fuel with
  | zero =>
    intro attempt h
    have h30 : ¬ attempt < 30 := by omega
    rw [ocr_poll.eq_def, dif_neg h30]
    simp
  | succ n ih =>
    intro attempt h
    rw [ocr_poll.eq_def]
    by_cases h30 : attempt < 30
    · rw [dif_pos h30]
      cases hr : responses attempt with
      | httpError e =>
        simp
        omega
      | reply st payload =>
        by_cases hs1 : st = some "succeeded"
        · simp [hs1]
          omega
        · by_cases hs2 : st = some "failed"
          · simp [hs1, hs2]
            omega
          · simp [hs1, hs2]
            have hrec := ih (attempt + 1) (by omega)
            omega
    · rw [dif_neg h30]
      simp

theorem ocr_poll_skip (responses : Nat → PollResponse) :
    ∀ fuel attempt k, attempt ≤ k → k ≤ 30 → k - attempt ≤ fuel →
      (∀ i, attempt ≤ i → i < k → pendingReply (responses i)) →
      (ocr_poll responses attempt).1 = (ocr_poll responses k).1 := by
  intro fuel
  induction fuel with
  | zero =>
    intro attempt k hak hk30 hf _
    have : attempt = k := by omega
    rw [this]
  | succ n ih =>
    intro attempt k hak hk30 hf hpend
    by_cases heq : attempt = k
    · rw [heq]
    · have hlt : attempt < k := by omega
      have h30 : attempt < 30 := by omega
      obtain ⟨st, payload, hr, hs1, hs2⟩ := hpend attempt (le_refl _) hlt
      conv_lhs => rw [ocr_poll.eq_def]
      rw [dif_pos h30, hr]
      simp only [hs1, hs2, if_false, ite_false]
      exact ih (attempt + 1) k (by omega) hk30 (by omega)
        (fun i hi1 hi2 => hpend i (by omega) hi2)

theorem ocr_poll_succeeded_at (responses : Nat → PollResponse) (k : Nat) (payload : RawOcr)
    (hk : k < 30) (hr : responses k = PollResponse.reply (some "succeeded") payload) :
    (ocr_poll responses k).1 = Except.ok (parse_ocr_result payload) := by
  rw [ocr_poll.eq_def, dif_pos hk, hr]
  simp

theorem ocr_poll_failed_at (responses : Nat → PollResponse) (k : Nat) (payload : RawOcr)
    (hk : k < 30) (hr : responses k = PollResponse.reply (some "failed") payload) :
    (ocr_poll responses k).1 = Except.error "El análisis OCR falló" := by
  rw [ocr_poll.eq_def, dif_pos hk, hr]
  simp

theorem ocr_poll_exhausted (responses : Nat → PollResponse) :
    (ocr_poll responses 30).1 = Except.error "Timeout esperando resultados de OCR" := by
  rw [ocr_poll.eq_def, dif_neg (by decide)]

/-- C10: the OCR result-polling loop terminates for every sequence of
backend replies within a budget of at most 30 polls; it returns the parsed
result at the first poll whose status is "succeeded", raises the
extraction error at the first "failed" status, and raises the timeout
error when no poll within the 30-attempt budget reaches a terminal status
(the fixed 1-second sleep between polls has no observable effect in this
model). -/
theorem ocr_polling_bounded (responses : Nat → PollResponse) :
    (get_ocr_results responses).2 ≤ 30 ∧
    ((∀ i, i < 30 → pendingReply (responses i)) →
      (get_ocr_results responses).1 = Except.error "Timeout esperando resultados de OCR") ∧
    (∀ k payload, k < 30 → (∀ i, i < k → pendingReply (responses i)) →
      responses k = PollResponse.reply (some "succeeded") payload →
      (get_ocr_results responses).1 = Except.ok (parse_ocr_result payload)) ∧
    (∀ k payload, k < 30 → (∀ i, i < k → pendingReply (responses i)) →
      responses k = PollResponse.reply (some "failed") payload →
      (get_ocr_results responses).1 = Except.error "El análisis OCR falló") := by
  refine ⟨?_, ?_, ?_, ?_⟩
  · have h := ocr_poll_count_le_aux responses 30 0 (by omega)
    simpa [get_ocr_results] using h
  · intro hpend
    have hskip := ocr_poll_skip responses 30 0 30 (by omega) (by omega) (by omega)
      (fun i _ hi => hpend i hi)
    show (ocr_poll responses 0).1 = _
    rw [hskip, ocr_poll_exhausted]
  · intro k payload hk hpend hr
    have hskip := ocr_poll_skip responses 30 0 k (by omega) (by omega) (by omega)
      (fun i _ hi => hpend i hi)
    show (ocr_poll responses 0).1 = _
    rw [hskip, ocr_poll_succeeded_at responses k payload hk hr]
  · intro k payload hk hpend hr
    have hskip := ocr_poll_skip responses 30 0 k (by omega) (by omega) (by omega)
      (fun i _ hi => hpend i hi)
    show (ocr_poll responses 0).1 = _
    rw [hskip, ocr_poll_failed_at responses k payload hk hr]

/-- Witness for C10 at three concrete backends: one that never terminates,
one succeeding on the first poll, one failing on the first poll. -/
theorem ocr_polling_bounded_witness :
    (get_ocr_results pendingForever).1 =
      Except.error "Timeout esperando resultados de OCR" ∧
    (get_ocr_results succeedsAtOnce).1 = Except.ok (parse_ocr_result rawOcrSample) ∧
    (get_ocr_results failsAtOnce).1 = Except.error "El análisis OCR falló" :=
  ⟨(ocr_polling_bounded pendingForever).2.1
     (fun _ _ => ⟨some "running", ⟨[]⟩, rfl, by decide, by decide⟩),
   (ocr_polling_bounded succeedsAtOnce).2.2.1 0 rawOcrSample (by decide)
     (fun i hi => absurd hi (Nat.not_lt_zero i)) rfl,
   (ocr_polling_bounded failsAtOnce).2.2.2 0 ⟨[]⟩ (by decide)
     (fun i hi => absurd hi (Nat.not_lt_zero i)) rfl⟩

end ManpowerDocProc
